import Mathlib

/-!
# Verification of the ATS extraction-and-scoring engine

Shallow embedding of the core of the ATS repository:
`backend/ats_scorer.py` (class `ATSScorer`), the skill / experience-years
extraction of `backend/job_parser.py` (class `JobDescriptionParser`), and the
skill / experience extraction of `backend/resume_parser.py` (class
`ResumeParser`).  Python strings are modelled as `String` / `List Char`,
Python `set[str]` as `Finset String`, Python floats as `ℚ` (all arithmetic in
the scorer stays within exactly representable decimal fractions except for
ratios of small integers, where exact rational comparison agrees with the
float comparisons performed by the code at every input that occurs here), and
Python `round(x, n)` as rounding `x·10^n` to the nearest integer.

The semantic-similarity collaborator (`backend/ml_model.py`) wraps an
sklearn TF-IDF + cosine computation in `try/except`; the numeric outcome of
that external computation is modelled as an explicit `Except Unit ℚ`
argument (`.ok v` = the cosine value the library returned, `.error ()` = any
exception raised inside the `try` block).
-/

namespace ATS

/-! ## Python string primitives -/

/-- Python `\s` / `str.strip()` whitespace (ASCII range; all inputs in this
development are ASCII). -/
def isPySpace (c : Char) : Bool :=
  c = ' ' || c = '\t' || c = '\n' || c = '\r' || c = '\x0b' || c = '\x0c'

/-- Python `\w` word character (ASCII range). -/
def isWordChar (c : Char) : Bool :=
  c.isAlpha || c.isDigit || c = '_'

/-- ASCII letter (`[a-zA-Z]`). -/
def isAsciiLetter (c : Char) : Bool := c.isAlpha

/-- ASCII capital (`[A-Z]`). -/
def isAsciiUpper (c : Char) : Bool := 'A' ≤ c && c ≤ 'Z'

/-- Python `str.lower()` on a character (ASCII range). -/
def pyLowerChar (c : Char) : Char := c.toLower

/-- Python `str.lower()`. -/
def pyLower (s : String) : String := ⟨s.data.map pyLowerChar⟩

/-- Python `str.strip()` on a character list. -/
def stripL (l : List Char) : List Char :=
  ((l.dropWhile isPySpace).reverse.dropWhile isPySpace).reverse

/-- Python `str.strip()`. -/
def pyStrip (s : String) : String := ⟨stripL s.data⟩

/-- `n` occurs as a contiguous substring of the second list (Python `in` on
`str`). -/
def isSubL (n : List Char) : List Char → Bool
  | [] => n.isEmpty
  | h :: t => n.isPrefixOf (h :: t) || isSubL n t

/-- Substring test on `String`s (Python `needle in hay`). -/
def isSub (needle hay : String) : Bool :=
  isSubL needle.data hay.data

/-- Python `str.split(d)` for a one-character separator (keeps empty pieces). -/
def splitChar (d : Char) : List Char → List Char → List (List Char)
  | [], acc => [acc.reverse]
  | c :: rest, acc =>
    if c = d then acc.reverse :: splitChar d rest []
    else splitChar d rest (c :: acc)

/-- Python `str.split()` (no argument): split on whitespace runs, dropping
empty pieces. -/
def wsSplit : List Char → List Char → List (List Char)
  | [], acc => if acc = [] then [] else [acc.reverse]
  | c :: rest, acc =>
    if isPySpace c then
      if acc = [] then wsSplit rest [] else acc.reverse :: wsSplit rest []
    else wsSplit rest (c :: acc)

/-- Python `str.title()`: a cased character is upper-cased after a non-cased
character and lower-cased otherwise (ASCII range). -/
def pyTitleGo : Bool → List Char → List Char
  | _, [] => []
  | prevCased, c :: rest =>
    if c.isAlpha then
      (if prevCased then c.toLower else c.toUpper) :: pyTitleGo true rest
    else c :: pyTitleGo false rest

/-- Python `str.title()`. -/
def pyTitle (s : String) : String := ⟨pyTitleGo false s.data⟩

/-- Digits of a decimal numeral to a `Nat` (Python `int(...)` on a string of
digits; all call sites pass strings matched by `\d+` or `\d{4}`). -/
def parseDigits (l : List Char) : Nat :=
  l.foldl (fun a c => 10 * a + (c.toNat - 48)) 0

/-- Python `round(x, 1)`: one decimal.  Python rounds half to even; `round`
on `ℚ` rounds half up — the two differ only at exact `.05` ties, which no
claim in this development depends on. -/
def round1 (x : ℚ) : ℚ := ((round (x * 10) : ℤ) : ℚ) / 10

/-- Python `round(x, 2)`: two decimals (same tie caveat as `round1`). -/
def round2 (x : ℚ) : ℚ := ((round (x * 100) : ℤ) : ℚ) / 100

/-! ## difflib.SequenceMatcher

`_score_skills` calls `SequenceMatcher(None, job_skill, resume_skill).ratio()`.
The stdlib algorithm is embedded below: no junk function is passed, so the
junk set is empty; `autojunk` marks an element of `b` "popular" (excluded
from the matching dictionary `b2j`) only when `b` has at least 200 elements.
The similarity value is kept as an exact rational; the code compares the
float `2.0*M/T` against the literal `0.8`, which agrees with the exact
comparison `2*M/T > 4/5` for every `M`, `T` of the magnitudes occurring here
(a float-rounding flip would need `|2M/T - 4/5|` below `2⁻⁵²`). -/

/-- A matching block `a[bi:bi+size] == b[bj:bj+size]`. -/
structure Block where
  bi : Nat
  bj : Nat
  size : Nat

/-- Character of `l` at index `i` (call sites keep `i` in range). -/
def getC (l : List Char) (i : Nat) : Char := l.getD i (Char.ofNat 0)

/-- `autojunk`: element `c` of `b` is "popular" iff `len(b) ≥ 200` and `c`
occurs more than `len(b)/100 + 1` times in `b`. -/
def bPopular (b : List Char) (c : Char) : Bool :=
  200 ≤ b.length && b.length / 100 + 1 < b.count c

/-- `j2len.get(j, 0)` on the association-list model of the DP dictionary. -/
def j2get (l : List (Nat × Nat)) (j : Nat) : Nat :=
  match l.find? (fun p => p.1 = j) with
  | some p => p.2
  | none => 0

/-- Inner loop of `find_longest_match` for one row `i` with `ch = a[i]`:
walks the `j` positions of `ch` in `b[blo:bhi]` in increasing order, building
the new DP dictionary and updating the best block on strict improvement. -/
def flmInner (b : List Char) (pop : Char → Bool) (ch : Char) (i : Nat) :
    List Nat → List (Nat × Nat) → List (Nat × Nat) → Block →
    List (Nat × Nat) × Block
  | [], _, newj2len, best => (newj2len, best)
  | j :: js, j2len, newj2len, best =>
    if getC b j = ch && !(pop ch) then
      -- Python reads `j2len.get(j-1, 0)`; at `j = 0` the key `-1` is absent.
      let k := (if j = 0 then 0 else j2get j2len (j - 1)) + 1
      let best := if best.size < k then ⟨i + 1 - k, j + 1 - k, k⟩ else best
      flmInner b pop ch i js j2len ((j, k) :: newj2len) best
    else
      flmInner b pop ch i js j2len newj2len best

/-- Row loop of `find_longest_match` over the indexed entries of
`a[alo:ahi]`. -/
def flmRows (b : List Char) (pop : Char → Bool) (blo bhi : Nat) :
    List (Nat × Char) → List (Nat × Nat) → Block → Block
  | [], _, best => best
  | (i, ch) :: rest, j2len, best =>
    let step := flmInner b pop ch i (List.range' blo (bhi - blo)) j2len [] best
    flmRows b pop blo bhi rest step.1 step.2

/-- Left extension loop of `find_longest_match` (the junk set is empty, so
the `not isbjunk(...)` guard is vacuous; the fuel equals `bi`, an upper bound
on the number of possible steps). -/
def extendL (a b : List Char) (alo blo : Nat) : Nat → Block → Block
  | 0, blk => blk
  | fuel + 1, blk =>
    if alo < blk.bi && blo < blk.bj &&
        getC a (blk.bi - 1) = getC b (blk.bj - 1) then
      extendL a b alo blo fuel ⟨blk.bi - 1, blk.bj - 1, blk.size + 1⟩
    else blk

/-- Right extension loop of `find_longest_match`. -/
def extendR (a b : List Char) (ahi bhi : Nat) : Nat → Block → Block
  | 0, blk => blk
  | fuel + 1, blk =>
    if blk.bi + blk.size < ahi && blk.bj + blk.size < bhi &&
        getC a (blk.bi + blk.size) = getC b (blk.bj + blk.size) then
      extendR a b ahi bhi fuel ⟨blk.bi, blk.bj, blk.size + 1⟩
    else blk

/-- `SequenceMatcher.find_longest_match(alo, ahi, blo, bhi)`: DP rows, then
the two non-junk extension loops (the final pair of junk-extension loops in
the stdlib never fires because the junk set is empty). -/
def findLongestMatch (a b : List Char) (pop : Char → Bool)
    (alo ahi blo bhi : Nat) : Block :=
  let base := flmRows b pop blo bhi
    ((List.range' alo (ahi - alo)).map (fun i => (i, getC a i))) [] ⟨alo, blo, 0⟩
  let base := extendL a b alo blo base.bi base
  extendR a b ahi bhi ahi base

/-- Sum of the sizes of `get_matching_blocks` restricted to the window
`a[alo:ahi] × b[blo:bhi]`: longest block, then recurse left and right of it.
The fuel bounds the recursion depth (each recursive window is strictly
smaller, so `ahi + bhi + 1` suffices). -/
def matchingSum (a b : List Char) (pop : Char → Bool) :
    Nat → Nat → Nat → Nat → Nat → Nat
  | 0, _, _, _, _ => 0
  | fuel + 1, alo, ahi, blo, bhi =>
    let blk := findLongestMatch a b pop alo ahi blo bhi
    if blk.size = 0 then 0
    else
      matchingSum a b pop fuel alo blk.bi blo blk.bj + blk.size +
        matchingSum a b pop fuel (blk.bi + blk.size) ahi (blk.bj + blk.size) bhi

/-- `SequenceMatcher(None, a, b).ratio()` as an exact rational:
`2·M / (len(a)+len(b))`, and `1` when both sequences are empty
(`difflib._calculate_ratio`). -/
def ratioVal (a b : List Char) : ℚ :=
  let total := a.length + b.length
  if total = 0 then 1
  else (2 * (matchingSum a b (bPopular b) (total + 1) 0 a.length 0 b.length) : ℚ) / total

/-- The `similarity > 0.8` threshold test of `_score_skills`. -/
def ratioGT08 (a b : List Char) : Prop := (0.8 : ℚ) < ratioVal a b

/-- `ratioGT08` decided by the equivalent integer comparison
`4·(len a + len b) < 10·M` (for a positive total length,
`4/5 < 2M/T ↔ 4T < 10M`; for total length 0 the ratio is 1 > 0.8), which the
kernel can evaluate directly. -/
instance ratioGT08Dec (a b : List Char) : Decidable (ratioGT08 a b) :=
  decidable_of_iff
    (a.length + b.length = 0 ∨
      4 * (a.length + b.length) <
        10 * matchingSum a b (bPopular b) (a.length + b.length + 1) 0
          a.length 0 b.length)
    (by
      by_cases hT : a.length + b.length = 0
      · simp only [ratioGT08, ratioVal, hT, if_pos, true_or, true_iff]
        norm_num
      · simp only [ratioGT08, ratioVal, hT, false_or, if_neg hT, if_false]
        have hpos : (0 : ℚ) < ((a.length + b.length : ℕ) : ℚ) := by
          exact_mod_cast Nat.pos_of_ne_zero hT
        rw [lt_div_iff₀ hpos, show (0.8 : ℚ) = 4 / 5 by norm_num,
          div_mul_eq_mul_div, div_lt_iff₀ (by norm_num : (0 : ℚ) < 5)]
        constructor
        · intro h
          have h2 : ((4 * (a.length + b.length) : ℕ) : ℚ) <
              ((10 * matchingSum a b (bPopular b) (a.length + b.length + 1) 0
                a.length 0 b.length : ℕ) : ℚ) := by
            exact_mod_cast h
          push_cast at h2 ⊢
          linarith
        · intro h
          have h2 : ((4 * (a.length + b.length) : ℕ) : ℚ) <
              ((10 * matchingSum a b (bPopular b) (a.length + b.length + 1) 0
                a.length 0 b.length : ℕ) : ℚ) := by
            push_cast at h ⊢
            linarith
          exact_mod_cast h2)

/-! ## A backtracking regular-expression engine

The parsers use `re.search` / `re.finditer` / `re.findall` with a handful of
fixed patterns.  The fragment below reproduces Python's leftmost-match,
left-biased-alternation, greedy-quantifier backtracking semantics for that
fragment: character classes, concatenation, alternation, greedy `*`/`+`/`?`,
one capture group, negative lookahead `(?!...)`, and the word boundary `\b`.
Case-insensitive matching (`re.IGNORECASE`) is expressed by building the
patterns from case-insensitive character classes.

The matcher is written in continuation-passing style so that a failing
continuation backtracks into earlier alternatives, exactly as Python's engine
does.  The fuel only bounds the depth of nested calls; every `star` iteration
is required to consume input (all star bodies in the patterns used here match
at least one character, and Python likewise stops repeating a quantifier body
that matched the empty string), so
`(size of the pattern + 2) * (length of the input + 2)` fuel is more than any
run can use and the `0`-fuel branch is unreachable at the call sites. -/

/-- Regular-expression abstract syntax. -/
inductive RE where
  | eps : RE
  | cls : (Char → Bool) → RE
  | cat : RE → RE → RE
  | alt : RE → RE → RE
  | star : RE → RE
  | opt : RE → RE
  | grp : RE → RE
  | nla : RE → RE
  | wb : RE

/-- Number of constructors of a pattern (used only to size the fuel). -/
def reSize : RE → Nat
  | .eps => 1
  | .cls _ => 1
  | .cat a b => reSize a + reSize b + 1
  | .alt a b => reSize a + reSize b + 1
  | .star a => reSize a + 1
  | .opt a => reSize a + 1
  | .grp a => reSize a + 1
  | .nla a => reSize a + 1
  | .wb => 1

/-- State reported by a successful match: the character preceding the current
position (for `\b`), the unconsumed input, and the contents of the capture
group if it participated in the match. -/
structure MState where
  prev : Option Char
  rest : List Char
  cap : Option (List Char)

/-- The backtracking matcher.  `k` is the continuation receiving the state
after `r`; returning `none` from `k` makes the engine backtrack into earlier
greedy/alternation choices, as Python's engine does. -/
def mrun (fuel : Nat) (r : RE) (prev : Option Char) (s : List Char)
    (cap : Option (List Char))
    (k : Option Char → List Char → Option (List Char) → Option MState) :
    Option MState :=
  match fuel with
  | 0 => none
  | fuel + 1 =>
    match r with
    | .eps => k prev s cap
    | .cls p =>
      match s with
      | [] => none
      | c :: rest => if p c then k (some c) rest cap else none
    | .cat a b =>
      mrun fuel a prev s cap (fun p t c => mrun fuel b p t c k)
    | .alt a b =>
      match mrun fuel a prev s cap k with
      | some m => some m
      | none => mrun fuel b prev s cap k
    | .star a =>
      match mrun fuel a prev s cap (fun p t c =>
          if t.length < s.length then mrun fuel (.star a) p t c k else none) with
      | some m => some m
      | none => k prev s cap
    | .opt a =>
      match mrun fuel a prev s cap k with
      | some m => some m
      | none => k prev s cap
    | .grp a =>
      mrun fuel a prev s cap (fun p t _ =>
        k p t (some (s.take (s.length - t.length))))
    | .nla a =>
      match mrun fuel a prev s cap (fun p t c => some ⟨p, t, c⟩) with
      | some _ => none
      | none => k prev s cap
    | .wb =>
      let pw := match prev with | some c => isWordChar c | none => false
      let nw := match s with | c :: _ => isWordChar c | [] => false
      if pw ≠ nw then k prev s cap else none

/-- Fuel that no run of `mrun` on pattern `r` and input `s` can exhaust. -/
def reFuel (r : RE) (s : List Char) : Nat :=
  (reSize r + 2) * (s.length + 2)

/-- Result of a successful `re.search`: the text before the match, the whole
match (`group(0)`), the capture group (`group(1)`), and the remaining text. -/
structure MatchResult where
  before : List Char
  whole : List Char
  grp1 : Option (List Char)
  rest : List Char

/-- `re.search` semantics: try to match at each position from left to right,
returning the first (leftmost) success. -/
def reSearchGo (r : RE) : Nat → Option Char → List Char → Option MatchResult
  | 0, _, _ => none
  | fuel + 1, prev, s =>
    match mrun (reFuel r s) r prev s none (fun p t c => some ⟨p, t, c⟩) with
    | some m => some ⟨[], s.take (s.length - m.rest.length), m.cap, m.rest⟩
    | none =>
      match s with
      | [] => none
      | c :: rest =>
        match reSearchGo r fuel (some c) rest with
        | some m => some { m with before := c :: m.before }
        | none => none

/-- `re.search` (the fuel `s.length + 1` covers every attempt position). -/
def reSearch (r : RE) (prev : Option Char) (s : List Char) : Option MatchResult :=
  reSearchGo r (s.length + 1) prev s

/-- `re.finditer` semantics: repeated `re.search`, resuming after the end of
the previous match (advancing one character past an empty match, as Python
does).  The fuel `s.length + 1` bounds the number of matches. -/
def findIter (r : RE) : Nat → Option Char → List Char → List MatchResult
  | 0, _, _ => []
  | fuel + 1, prev, s =>
    match reSearch r prev s with
    | none => []
    | some m =>
      let nextPrev := match (m.before ++ m.whole).getLast? with
        | some c => some c
        | none => prev
      if m.whole = [] then
        m :: (match m.rest with
          | [] => []
          | c :: rest => findIter r fuel (some c) rest)
      else m :: findIter r fuel nextPrev m.rest

/-- `re.findall` returning the whole match of each occurrence (used for the
capitalized-terms pattern, which has no groups). -/
def findAllWhole (r : RE) (s : List Char) : List (List Char) :=
  (findIter r (s.length + 1) none s).map (fun m => m.whole)

/-! Pattern constructors. -/

/-- Case-sensitive literal character. -/
def reChar (c : Char) : RE := .cls (fun d => d = c)

/-- Case-insensitive literal character (patterns are written in lowercase;
`re.IGNORECASE`). -/
def reCharCI (c : Char) : RE := .cls (fun d => d.toLower = c)

/-- Concatenation of a list of patterns. -/
def reSeq (l : List RE) : RE := l.foldr RE.cat RE.eps

/-- Case-sensitive literal string. -/
def reStr (s : String) : RE := reSeq (s.data.map reChar)

/-- Case-insensitive literal string. -/
def reStrCI (s : String) : RE := reSeq (s.data.map reCharCI)

/-- Greedy `+`. -/
def rePlus (r : RE) : RE := .cat r (.star r)

/-! ## The concrete patterns of the parsers -/

/-- `\s*` -/
def sStar : RE := .star (.cls isPySpace)

/-- `[\s:]*` -/
def spaceColonStar : RE := .star (.cls (fun c => isPySpace c || c = ':'))

/-- The bullet character `•` appearing in the section patterns. -/
def bulletChar : Char := Char.ofNat 8226

/-- `[^•\n]` -/
def notBulletNl : RE := .cls (fun c => !(c = bulletChar || c = '\n'))

/-- `([^•\n]+(?:\n(?!•)[^•\n]+)*)` — the captured section block shared by the
skills-section patterns. -/
def sectionBlock : RE :=
  .grp (.cat (rePlus notBulletNl)
    (.star (reSeq [reChar '\n', .nla (.cls (fun c => c = bulletChar)),
                   rePlus notBulletNl])))

/-- `resume_parser.extract_skills`:
`(?:skills?|technical skills?|competencies?)[\s:]*(...)` with `IGNORECASE`
(`MULTILINE` is irrelevant: the pattern has no anchors). -/
def resumeSkillsSectionRE : RE :=
  reSeq [.alt (.cat (reStrCI "skill") (.opt (reCharCI 's')))
           (.alt (.cat (reStrCI "technical skill") (.opt (reCharCI 's')))
             (.cat (reStrCI "competencie") (.opt (reCharCI 's')))),
         spaceColonStar, sectionBlock]

/-- `job_parser._extract_skills`, first pattern:
`(?:required skills?|technical skills?|skills required|qualifications?)[\s:]*(...)`. -/
def jobSkillsRE1 : RE :=
  reSeq [.alt (.cat (reStrCI "required skill") (.opt (reCharCI 's')))
           (.alt (.cat (reStrCI "technical skill") (.opt (reCharCI 's')))
             (.alt (reStrCI "skills required")
               (.cat (reStrCI "qualification") (.opt (reCharCI 's'))))),
         spaceColonStar, sectionBlock]

/-- `job_parser._extract_skills`, second pattern:
`(?:must have|required)[\s:]*(...)`. -/
def jobSkillsRE2 : RE :=
  reSeq [.alt (reStrCI "must have") (reStrCI "required"),
         spaceColonStar, sectionBlock]

/-- One capitalized word `[A-Z][a-zA-Z]*`. -/
def capWord : RE := .cat (.cls isAsciiUpper) (.star (.cls isAsciiLetter))

/-- `\b[A-Z][a-zA-Z]*(?:\s+[A-Z][a-zA-Z]*)*\b` (capitalized multi-word
terms; case-sensitive). -/
def capTermRE : RE :=
  reSeq [.wb, capWord, .star (.cat (rePlus (.cls isPySpace)) capWord), .wb]

/-- `(\d+)\+?\s*years?\s*(?:of\s*)?(?:experience|exp)` with `IGNORECASE`. -/
def yearsRE1 : RE :=
  reSeq [.grp (rePlus (.cls Char.isDigit)), .opt (reChar '+'), sStar,
         reStrCI "year", .opt (reCharCI 's'), sStar,
         .opt (.cat (reStrCI "of") sStar),
         .alt (reStrCI "experience") (reStrCI "exp")]

/-- `minimum\s*(?:of\s*)?(\d+)\s*years?` with `IGNORECASE`. -/
def yearsRE2 : RE :=
  reSeq [reStrCI "minimum", sStar, .opt (.cat (reStrCI "of") sStar),
         .grp (rePlus (.cls Char.isDigit)), sStar,
         reStrCI "year", .opt (reCharCI 's')]

/-- `at least\s*(\d+)\s*years?` with `IGNORECASE`. -/
def yearsRE3 : RE :=
  reSeq [reStrCI "at least", sStar, .grp (rePlus (.cls Char.isDigit)), sStar,
         reStrCI "year", .opt (reCharCI 's')]

/-- `\d{4}` -/
def d4 : RE := reSeq (List.replicate 4 (.cls Char.isDigit))

/-- `\w{3}\s+\d{4}` ("Mon Year"). -/
def monthYear : RE :=
  reSeq [reSeq (List.replicate 3 (.cls isWordChar)), rePlus (.cls isPySpace), d4]

/-- `resume_parser.extract_experience` date-range pattern
`(\d{4}|\w{3}\s+\d{4})\s*[-–—]\s*(\d{4}|\w{3}\s+\d{4}|Present|Current)` with
`IGNORECASE`.  Only `group(0)` is consumed by the code, so the two groups
are embedded without capture markers. -/
def dateRangeRE : RE :=
  reSeq [.alt d4 monthYear, sStar,
         .cls (fun c => c = '-' || c = Char.ofNat 8211 || c = Char.ofNat 8212),
         sStar,
         .alt d4 (.alt monthYear (.alt (reStrCI "present") (reStrCI "current")))]

/-- `(experience|employment|work history|professional experience)` with
`IGNORECASE` (only the existence of a match is consumed). -/
def expHeaderRE : RE :=
  .alt (reStrCI "experience")
    (.alt (reStrCI "employment")
      (.alt (reStrCI "work history") (reStrCI "professional experience")))

/-- `re.findall(r'(\d{4})', dates)`: the group spans the whole match, so the
returned strings are the whole matches. -/
def findAll4 (s : List Char) : List (List Char) := findAllWhole d4 s

/-! ## Data model -/

/-- One entry of `resume_data['experience']`
(`{'dates': ..., 'description': ...}`). -/
structure ExperienceEntry where
  dates : String
  description : String
deriving DecidableEq

/-- The structured resume profile consumed by `ATSScorer.calculate_score`
(the keys of `ResumeParser.parse`'s result that the scorer reads). -/
structure ResumeData where
  text : String
  skills : Finset String
  experience : List ExperienceEntry
  education : List String
  keywords : Finset String
deriving DecidableEq

/-- The structured job-requirement profile
(`JobDescriptionParser.extract_requirements`'s result). -/
structure JobData where
  skills : Finset String
  experience_years : Nat
  education : List String
  responsibilities : List String
  qualifications : List String
  keywords : Finset String
  full_text : String
deriving DecidableEq

/-- The dictionary returned by `ATSScorer.calculate_score`.  Python converts
the matched/missing sets to lists (in set-iteration order); they are kept as
`Finset`s here. -/
structure ScoreResult where
  overall_score : ℚ
  skills_score : ℚ
  keywords_score : ℚ
  experience_score : ℚ
  education_score : ℚ
  semantic_score : ℚ
  missing_skills : Finset String
  matched_skills : Finset String
  strengths : List String
  suggestions : List String
deriving DecidableEq

/-! ## The extractors -/

/-- `ResumeParser._get_common_skills`. -/
def commonSkillsResume : List String :=
  ["Python", "Java", "JavaScript", "C++", "C#", "Ruby", "Go", "Swift", "Kotlin",
   "TypeScript", "PHP", "R", "MATLAB", "Scala", "Perl", "Rust",
   "HTML", "CSS", "React", "Angular", "Vue.js", "Node.js", "Express", "Django",
   "Flask", "Spring", "ASP.NET", "jQuery", "Bootstrap", "SASS", "LESS",
   "SQL", "MySQL", "PostgreSQL", "MongoDB", "Oracle", "SQLite", "Redis",
   "Cassandra", "Elasticsearch", "DynamoDB",
   "AWS", "Azure", "GCP", "Docker", "Kubernetes", "Jenkins", "CI/CD",
   "Git", "GitHub", "GitLab", "Terraform", "Ansible", "Chef", "Puppet",
   "Machine Learning", "Deep Learning", "TensorFlow", "PyTorch", "Keras",
   "Pandas", "NumPy", "Scikit-learn", "Data Analysis", "Statistics",
   "Natural Language Processing", "Computer Vision",
   "Linux", "Unix", "Windows", "Agile", "Scrum", "JIRA", "Confluence",
   "Project Management", "Leadership", "Communication", "Teamwork",
   "Problem Solving", "Analytical Thinking"]

/-- The `common_skills` list of `JobDescriptionParser._extract_skills`. -/
def commonSkillsJob : List String :=
  ["python", "java", "javascript", "c++", "c#", "ruby", "go", "swift", "kotlin",
   "typescript", "php", "r", "matlab", "scala", "perl", "rust",
   "html", "css", "react", "angular", "vue.js", "node.js", "express", "django",
   "flask", "spring", "asp.net", "jquery", "bootstrap", "sass", "less",
   "sql", "mysql", "postgresql", "mongodb", "oracle", "sqlite", "redis",
   "aws", "azure", "gcp", "docker", "kubernetes", "jenkins", "ci/cd",
   "git", "github", "gitlab", "terraform", "ansible", "chef", "puppet",
   "machine learning", "deep learning", "tensorflow", "pytorch", "keras",
   "pandas", "numpy", "scikit-learn", "data analysis", "statistics",
   "linux", "unix", "windows", "agile", "scrum", "jira", "confluence"]

/-- Delimiters of the resume skills-section split (`',', ';', '|', '\n', '/'`). -/
def resumeSectionDelims : List Char := [',', ';', '|', '\n', '/']

/-- Delimiters of the job skills-section split
(`',', ';', '|', '\n', '/', '•', '-'`). -/
def jobSectionDelims : List Char :=
  [',', ';', '|', '\n', '/', bulletChar, '-']

/-- `ResumeParser.extract_skills` (with the default skill dictionary):
dictionary substring scan plus delimiter split of the captured skills
section.  Python checks `if delimiter in skills_text` before splitting. -/
def extractSkillsResume (text : String) : Finset String :=
  let textLower := pyLower text
  let base := (commonSkillsResume.filter
    (fun sk => isSub (pyLower sk) textLower)).toFinset
  match reSearch resumeSkillsSectionRE none text.data with
  | none => base
  | some m =>
    let skillsText := m.grp1.getD []
    resumeSectionDelims.foldl (fun acc d =>
      if skillsText.contains d then
        (splitChar d skillsText []).foldl (fun acc item =>
          let sk := stripL item
          if 2 < sk.length && sk.length < 50 then insert (⟨sk⟩ : String) acc
          else acc) acc
      else acc) base

/-- `JobDescriptionParser._extract_skills`: dictionary substring scan
(title-cased on insertion), then for every match of the two section patterns,
capitalized terms longer than 2 characters plus delimiter-split items of
length 3–49 (the job variant splits on every delimiter without a membership
check). -/
def extractSkillsJob (text : String) : Finset String :=
  let textLower := pyLower text
  let base := ((commonSkillsJob.filter (fun sk => isSub sk textLower)).map
    pyTitle).toFinset
  [jobSkillsRE1, jobSkillsRE2].foldl (fun acc pat =>
    (findIter pat (text.data.length + 1) none text.data).foldl (fun acc m =>
      let skillsText := m.grp1.getD []
      let acc := (findAllWhole capTermRE skillsText).foldl (fun acc t =>
        if 2 < t.length then insert (⟨t⟩ : String) acc else acc) acc
      jobSectionDelims.foldl (fun acc d =>
        (splitChar d skillsText []).foldl (fun acc item =>
          let it := stripL item
          if 2 < it.length && it.length < 50 then insert (⟨it⟩ : String) acc
          else acc) acc) acc) acc) base

/-- `int(match.group(1))` of a successful search of one experience-years
pattern. -/
def searchYears (pat : RE) (text : String) : Option Nat :=
  match reSearch pat none text.data with
  | some m => some (parseDigits (m.grp1.getD []))
  | none => none

/-- The `for pattern in patterns: ... return int(match.group(1))` loop of
`JobDescriptionParser._extract_experience_years`. -/
def firstPatternYears : List RE → String → Nat
  | [], _ => 0
  | p :: ps, t =>
    match searchYears p t with
    | some n => n
    | none => firstPatternYears ps t

/-- `JobDescriptionParser._extract_experience_years`. -/
def extractExperienceYears (text : String) : Nat :=
  firstPatternYears [yearsRE1, yearsRE2, yearsRE3] text

/-- Line loop of `ResumeParser.extract_experience` (state: inside the
experience section, the open entry, the accumulated entries). -/
def extractExperienceGo :
    List (List Char) → Bool → Option ExperienceEntry → List ExperienceEntry →
    List ExperienceEntry
  | [], _, cur, acc =>
    (match cur with
     | some e => acc ++ [e]
     | none => acc)
  | line :: rest, inSec, cur, acc =>
    let ls := stripL line
    if (reSearch expHeaderRE none ls).isSome then
      extractExperienceGo rest true cur acc
    else if inSec && !ls.isEmpty then
      match reSearch dateRangeRE none ls with
      | some m =>
        extractExperienceGo rest inSec (some ⟨⟨m.whole⟩, ⟨ls⟩⟩)
          (match cur with
           | some e => acc ++ [e]
           | none => acc)
      | none =>
        match cur with
        | some e =>
          extractExperienceGo rest inSec
            (some { e with description := e.description ++ " " ++ (⟨ls⟩ : String) }) acc
        | none => extractExperienceGo rest inSec none acc
    else extractExperienceGo rest inSec cur acc

/-- `ResumeParser.extract_experience`. -/
def extractExperience (text : String) : List ExperienceEntry :=
  extractExperienceGo (splitChar '\n' text.data []) false none []

/-! ## ATSScorer -/

/-- Python `s.lower().strip()` (the normalization of `_score_skills` /
`_score_keywords`). -/
def lowerStrip (s : String) : String := pyStrip (pyLower s)

/-- `exact_matches = resume_skills_lower & job_skills_lower`. -/
def exactMatches (rs js : Finset String) : Finset String :=
  (rs.image lowerStrip) ∩ (js.image lowerStrip)

/-- The fuzzy-match loop of `_score_skills`: a not-exactly-matched job skill
is fuzzy-matched iff some resume skill has `SequenceMatcher` ratio above
`0.8` (the `break` makes only membership observable, so the loop is a
filter). -/
def fuzzyMatches (rs js : Finset String) : Finset String :=
  ((js.image lowerStrip) \ exactMatches rs js).filter
    (fun j => ∃ r ∈ rs.image lowerStrip, ratioGT08 j.data r.data)

/-- `ATSScorer._score_skills`, returning
`(score, matched_skills, missing_skills)`. -/
def scoreSkills (rs js : Finset String) : ℚ × Finset String × Finset String :=
  if js = ∅ then (100, ∅, ∅)
  else
    let exact := exactMatches rs js
    let fuzzy := fuzzyMatches rs js
    let matched := js.filter (fun o => lowerStrip o ∈ exact ∪ fuzzy)
    let jsL := js.image lowerStrip
    let total := exact.card + fuzzy.card
    let score := if jsL ≠ ∅ then ((total : ℚ) / jsL.card) * 100 else 100
    (min score 100, matched, js \ matched)

/-- `ATSScorer._score_keywords`, returning `(score, matched_keywords)`. -/
def scoreKeywords (rk jk : Finset String) : ℚ × Finset String :=
  if jk = ∅ then (100, ∅)
  else
    let rl := rk.image lowerStrip
    let jl := jk.image lowerStrip
    let matched := rl ∩ jl
    let matchedK := jk.filter (fun o => lowerStrip o ∈ matched)
    let score := if jl ≠ ∅ then ((matched.card : ℚ) / jl.card) * 100 else 100
    (min score 100, matchedK)

/-- Year delta of one experience entry: with at least two 4-digit years in
the date string, `end - start` (an empty second year would default to 2024,
but `\d{4}` never produces one); otherwise no contribution.  The
`try/except ValueError` of the source is dead code because `\d{4}` matches
only digits. -/
def entryDelta (e : ExperienceEntry) : Option ℤ :=
  match findAll4 e.dates.data with
  | y0 :: y1 :: _ =>
    let startYear : ℤ := (parseDigits y0 : ℤ)
    let endYear : ℤ := if y1 = [] then 2024 else (parseDigits y1 : ℤ)
    some (endYear - startYear)
  | _ => none

/-- `total_years` accumulated over the entries before the fallback. -/
def deltaSum (l : List ExperienceEntry) : ℤ :=
  (l.filterMap entryDelta).sum

/-- Final step of `_score_experience`: `100` when the accumulated years meet
the requirement, else the proportional score. -/
def expFinal (total : ℤ) (required : Nat) : ℚ :=
  if (required : ℤ) ≤ total then 100 else (total : ℚ) / required * 100

/-- `ATSScorer._score_experience`. -/
def scoreExperience (l : List ExperienceEntry) (required : Nat) : ℚ :=
  if required = 0 then 100
  else
    let total := deltaSum l
    let total := if total = 0 ∧ l ≠ [] then (l.length * 2 : ℤ) else total
    expFinal total required

/-- `ATSScorer._score_education`. -/
def scoreEducation (redu jedu : List String) : ℚ :=
  if jedu = [] then 100
  else
    let txt := pyLower (String.intercalate " " redu)
    let matched := jedu.countP (fun je =>
      ((wsSplit (pyLower je).data []).take 2).any (fun t => isSubL t txt.data))
    let score := if jedu ≠ [] then ((matched : ℚ) / jedu.length) * 100 else 100
    min score 100

/-- `ml_model.compute_semantic_similarity` with the sklearn TF-IDF/cosine
step abstracted as `sim` (`.ok v` = the cosine value the library computed,
`.error ()` = any exception raised inside the `try` block, absorbed by the
bare `except`). -/
def computeSemanticSimilarity (resumeText jobText : String)
    (sim : Except Unit ℚ) : ℚ :=
  let r := pyStrip resumeText
  let j := pyStrip jobText
  if r = "" ∨ j = "" then 0
  else
    match sim with
    | .error _ => 0
    | .ok v => round2 (v * 100)

/-- `ATSScorer._generate_strengths` (the `job_data` argument is unused by
the source body as well). -/
def generateStrengths (resume : ResumeData) (job : JobData)
    (matchedSkills matchedKeywords : Finset String) (semantic : ℚ) :
    List String :=
  let strengths :=
    (if 0 < matchedSkills.card then
      [if 5 ≤ matchedSkills.card then
        "Strong technical skills match (" ++ toString matchedSkills.card ++
          " skills aligned with job requirements)"
       else
        "Some relevant technical skills (" ++ toString matchedSkills.card ++
          " matched)"]
     else [])
    ++ (if 0 < matchedKeywords.card then
      ["Good keyword alignment (" ++ toString matchedKeywords.card ++
        " keywords match)"]
     else [])
    ++ (if 70 ≤ semantic then
      ["Strong overall alignment to the job description (semantic similarity)"]
     else [])
    ++ (if resume.experience ≠ [] then
      ["Demonstrated work experience (" ++ toString resume.experience.length ++
        " positions)"]
     else [])
    ++ (if resume.education ≠ [] then ["Relevant educational background"]
     else [])
  if strengths = [] then
    ["Resume shows potential, but needs more alignment with job requirements"]
  else strengths

/-- The "add missing skills" suggestion sentence. -/
def missingSkillsSentence (ms : String) : String :=
  "Add missing key skills: " ++ ms ++
    ". If you have experience with these, make sure they\x27re mentioned in your resume."

/-- The low-overall-score suggestion sentence. -/
def lowScoreSentence : String :=
  "Overall score is below average. Consider revising your resume to better align with the job description. Use keywords from the job posting."

/-- The mid-overall-score suggestion sentence. -/
def midScoreSentence : String :=
  "Score is good but can be improved. Focus on adding missing skills and emphasizing relevant experience more prominently."

/-- The low-semantic-score suggestion sentence. -/
def semanticSentence : String :=
  "Improve semantic alignment: mirror phrasing from the job description, add role-specific keywords in context, and ensure your summary and bullet points reflect the responsibilities."

/-- The experience-visibility suggestion sentence. -/
def experienceSentence (n : Nat) : String :=
  "The job requires " ++ toString n ++
    " years of experience. Make sure your experience section is clearly formatted and visible."

/-- The keyword-count suggestion sentence. -/
def keywordSentence : String :=
  "Add more relevant keywords and industry-specific terms from the job description to improve ATS parsing."

/-- The always-appended formatting suggestion sentence. -/
def formattingSentence : String :=
  "Ensure your resume uses standard formatting with clear sections: Skills, Experience, Education. Avoid graphics and complex layouts that ATS systems can\x27t parse."

/-- `ATSScorer._generate_suggestions`.  Python truncates
`list(missing_skills)[:5]` in set-iteration order, which is not fixed by the
set's membership; the model uses the lexicographic order (the spec notes the
truncation order as an accepted nondeterminism / suggests sorting). -/
def generateSuggestions (missing : Finset String) (job : JobData)
    (resume : ResumeData) (overall semantic : ℚ) : List String :=
  (if missing ≠ ∅ then
    let top := (missing.sort (· ≤ ·)).take 5
    if top ≠ [] then
      [missingSkillsSentence (String.intercalate ", " top)]
    else []
   else [])
  ++ (if overall < 60 then [lowScoreSentence]
      else if overall < 80 then [midScoreSentence] else [])
  ++ (if semantic < 60 then [semanticSentence] else [])
  ++ (if 0 < job.experience_years ∧ resume.experience.length = 0 then
      [experienceSentence job.experience_years] else [])
  ++ (if resume.keywords.card < 20 then [keywordSentence] else [])
  ++ [formattingSentence]

/-- `ATSScorer.calculate_score`.  The only effectful collaborator — the
sklearn computation inside `compute_semantic_similarity` — enters as the
explicit `sim` argument. -/
def calculateScore (resume : ResumeData) (job : JobData)
    (sim : Except Unit ℚ) : ScoreResult :=
  let sk := scoreSkills resume.skills job.skills
  let kw := scoreKeywords resume.keywords job.keywords
  let experienceScore := scoreExperience resume.experience job.experience_years
  let educationScore := scoreEducation resume.education job.education
  let semanticScore := computeSemanticSimilarity resume.text job.full_text sim
  let overallScore :=
    sk.1 * 0.35 + kw.1 * 0.20 + experienceScore * 0.15 +
      educationScore * 0.10 + semanticScore * 0.20
  { overall_score := round1 overallScore
    skills_score := round1 sk.1
    keywords_score := round1 kw.1
    experience_score := round1 experienceScore
    education_score := round1 educationScore
    semantic_score := round1 semanticScore
    missing_skills := sk.2.2
    matched_skills := sk.2.1
    strengths := generateStrengths resume job sk.2.1 kw.2 semanticScore
    suggestions :=
      generateSuggestions sk.2.2 job resume overallScore semanticScore }

/-! ## Concrete inputs used by witnesses and counterexamples -/

/-- The resume text of the spec's end-to-end scenario (§8). -/
def e2eResumeText : String := "Skilled in Python, SQL, 2019 - 2022 Software Engineer"

/-- The job text of the spec's end-to-end scenario (§8). -/
def e2eJobText : String :=
  "Required skills: Python, Java. Minimum 3 years experience. Bachelor\x27s degree required."

/-- An empty resume profile. -/
def emptyResume : ResumeData := ⟨"", ∅, [], [], ∅⟩

/-- An empty job profile. -/
def emptyJob : JobData := ⟨∅, 0, [], [], [], ∅, ""⟩

/-- The skill set `extract_skills` produces from `e2eResumeText` (dictionary
hits `Python`, `R`, `SQL` plus the section-split items). -/
def e2eResumeSkills : Finset String :=
  {"Python", "R", "SQL", "ed in Python", "2019 - 2022 Software Engineer"}

/-- The skill set `_extract_skills` produces from `e2eJobText` (dictionary
hits `Python`, `Java`, `R`, the capitalized terms `Minimum` and `Bachelor`,
and the comma-split item `skills: Python`). -/
def e2eJobSkills : Finset String :=
  {"Python", "Java", "R", "Minimum", "Bachelor", "skills: Python"}

/-! ## Helper lemmas -/

theorem strDataAppend (s t : String) : (s ++ t).data = s.data ++ t.data := by
  cases s
  cases t
  rfl

theorem ne_of_headNe {s t : String} (h : s.data.head? ≠ t.data.head?) :
    s ≠ t :=
  fun e => h (by rw [e])

theorem missingSentenceHead (ms : String) :
    (missingSkillsSentence ms).data.head? = some 'A' := by
  simp only [missingSkillsSentence, strDataAppend]
  rfl

theorem experienceSentenceHead (n : Nat) :
    (experienceSentence n).data.head? = some 'T' := by
  simp only [experienceSentence, strDataAppend]
  rfl

theorem lowNeMissing (ms : String) :
    lowScoreSentence ≠ missingSkillsSentence ms :=
  ne_of_headNe (by rw [missingSentenceHead]; decide)

theorem midNeMissing (ms : String) :
    midScoreSentence ≠ missingSkillsSentence ms :=
  ne_of_headNe (by rw [missingSentenceHead]; decide)

theorem lowNeExperience (n : Nat) :
    lowScoreSentence ≠ experienceSentence n :=
  ne_of_headNe (by rw [experienceSentenceHead]; decide)

theorem midNeExperience (n : Nat) :
    midScoreSentence ≠ experienceSentence n :=
  ne_of_headNe (by rw [experienceSentenceHead]; decide)

theorem lastOfAppendSingleton {α : Type} (a : α) :
    ∀ l : List α, (l ++ [a]).getLast? = some a
  | [] => rfl
  | [_] => rfl
  | _ :: c :: t => by
    rw [List.cons_append, List.cons_append, List.getLast?_cons_cons,
      ← List.cons_append]
    exact lastOfAppendSingleton a (c :: t)

set_option maxRecDepth 40000 in
/-- Evaluation of `_score_skills` on the skill sets the two extractors
produce from the end-to-end scenario texts: 2 of the 6 distinct job-side
skills match exactly (`python`, `r`), none fuzzily. -/
theorem e2eSkillsEval :
    scoreSkills (extractSkillsResume e2eResumeText)
        (extractSkillsJob e2eJobText) =
      (100 / 3, {"Python", "R"},
        {"Java", "Minimum", "Bachelor", "skills: Python"}) := by
  have hr : extractSkillsResume e2eResumeText = e2eResumeSkills := by decide
  have hj : extractSkillsJob e2eJobText = e2eJobSkills := by decide
  rw [hr, hj]
  have hne : ¬ e2eJobSkills = ∅ := by decide
  have hex : exactMatches e2eResumeSkills e2eJobSkills = {"python", "r"} := by
    decide
  have hfz : fuzzyMatches e2eResumeSkills e2eJobSkills = ∅ := by decide
  have hmat : e2eJobSkills.filter
      (fun o => lowerStrip o ∈ ({"python", "r"} : Finset String) ∪ ∅) =
      {"Python", "R"} := by decide
  have hne2 : ¬ e2eJobSkills.image lowerStrip = ∅ := by decide
  have hcard : (e2eJobSkills.image lowerStrip).card = 6 := by decide
  have hmiss : e2eJobSkills \ ({"Python", "R"} : Finset String) =
      {"Java", "Minimum", "Bachelor", "skills: Python"} := by decide
  have hc1 : ({"python", "r"} : Finset String).card = 2 := by decide
  have hc2 : (∅ : Finset String).card = 0 := by decide
  simp only [scoreSkills, hne, hex, hfz, hmat, hne2, hcard, hmiss, hc1, hc2,
    if_true, if_false, not_false_iff, ne_eq, ite_not, Prod.mk.injEq]
  norm_num

/-- Evaluation of the experience component on the end-to-end scenario: the
resume text has no experience section header, so no entries are extracted,
and with a 3-year requirement the score is 0. -/
theorem e2eExperienceEval :
    scoreExperience (extractExperience e2eResumeText)
      (extractExperienceYears e2eJobText) = 0 := by
  have he : extractExperience e2eResumeText = [] := by decide
  have hy : extractExperienceYears e2eJobText = 3 := by decide
  rw [he, hy]
  simp [scoreExperience, deltaSum, expFinal]

/-! ## The claims -/

/-- Claim C1 (refuted — code bug): the spec says every component score lies
in `[0, 100]`, but `_score_experience` returns a negative score for a resume
whose experience entry carries a reversed date range: for the entry with
dates `"2022 - 2020"` and a 3-year requirement the extracted delta is
`2020 - 2022 = -2`, the fallback does not fire (the total is nonzero), and
the returned score is `-2/3 · 100 = -200/3 < 0`, contradicting both the spec
and the function's own `"Score experience match (0-100)"` docstring. -/
theorem c1_experience_score_negative :
    scoreExperience [⟨"2022 - 2020", "Software Engineer"⟩] 3 = -200 / 3 ∧
    ¬ 0 ≤ scoreExperience [⟨"2022 - 2020", "Software Engineer"⟩] 3 := by
  have hd : deltaSum [⟨"2022 - 2020", "Software Engineer"⟩] = -2 := by decide
  have h : scoreExperience [⟨"2022 - 2020", "Software Engineer"⟩] 3 =
      -200 / 3 := by
    simp only [scoreExperience, expFinal, hd]
    norm_num
  refine ⟨h, ?_⟩
  rw [h]
  norm_num

/-- Claim C2 (confirmed): `matched_skills` and `missing_skills` returned by
`_score_skills` partition the job-side skill set: their union is the job
skill set (in original job-side casing, since both are carved out of `js`
itself) and they are disjoint. -/
theorem c2_matched_missing_partition (rs js : Finset String) :
    (scoreSkills rs js).2.1 ∪ (scoreSkills rs js).2.2 = js ∧
    Disjoint (scoreSkills rs js).2.1 (scoreSkills rs js).2.2 := by
  by_cases h : js = ∅
  · subst h
    simp [scoreSkills]
  · simp only [scoreSkills, if_neg h]
    exact ⟨Finset.union_sdiff_of_subset (Finset.filter_subset _ _),
      Finset.disjoint_sdiff⟩

/-- Claim C3 (confirmed): the vacuous-match policy.  An empty job skill set
yields skill score 100 with empty matched and missing sets; an empty
education-requirement list yields education score 100; a zero experience
requirement yields experience score 100. -/
theorem c3_vacuous_matches :
    (∀ rs : Finset String, scoreSkills rs ∅ = (100, ∅, ∅)) ∧
    (∀ redu : List String, scoreEducation redu [] = 100) ∧
    (∀ l : List ExperienceEntry, scoreExperience l 0 = 100) := by
  refine ⟨fun rs => ?_, fun redu => ?_, fun l => ?_⟩ <;>
    simp [scoreSkills, scoreEducation, scoreExperience]

/-- Claim C4 counterexample: the claim says the 2-years-per-entry estimate is
substituted *exactly when no entry yields extractable years*.  The entry with
dates `"2020 - 2020"` yields extractable years (two 4-digit years, delta 0),
yet the code still substitutes the estimate: with a 4-year requirement it
returns `2·1/4·100 = 50`, while the per-entry deltas would give
`expFinal 0 4 = 0`. -/
theorem c4_counterexample :
    (entryDelta ⟨"2020 - 2020", ""⟩).isSome = true ∧
    scoreExperience [⟨"2020 - 2020", ""⟩] 4 = 50 ∧
    expFinal (deltaSum [⟨"2020 - 2020", ""⟩]) 4 = 0 := by
  have hd : deltaSum [⟨"2020 - 2020", ""⟩] = 0 := by decide
  refine ⟨by decide, ?_, ?_⟩
  · simp only [scoreExperience, expFinal, hd]
    norm_num
  · rw [hd]
    simp only [expFinal]
    norm_num

/-- Claim C4 (corrected): for a non-empty entry list and a positive
requirement, `_score_experience` substitutes the 2-years-per-entry estimate
exactly when the accumulated per-entry year deltas sum to zero — which
includes, but is not limited to, the case where no entry yields extractable
years; whenever the delta sum is nonzero it is used as the accumulated
years. -/
theorem c4_fallback_on_zero_sum (l : List ExperienceEntry) (required : Nat)
    (h1 : required ≠ 0) (h2 : l ≠ []) :
    scoreExperience l required =
      expFinal (if deltaSum l = 0 then (l.length * 2 : ℤ) else deltaSum l)
        required := by
  simp only [scoreExperience, if_neg h1]
  by_cases hd : deltaSum l = 0
  · simp [hd, h2]
  · simp [hd]

/-- Witness for `c4_fallback_on_zero_sum` at a concrete input. -/
theorem c4_fallback_witness :
    (5 ≠ 0) ∧ ([(⟨"2019 - 2022", ""⟩ : ExperienceEntry)] ≠ []) ∧
    scoreExperience [⟨"2019 - 2022", ""⟩] 5 =
      expFinal
        (if deltaSum [(⟨"2019 - 2022", ""⟩ : ExperienceEntry)] = 0 then
          ([(⟨"2019 - 2022", ""⟩ : ExperienceEntry)].length * 2 : ℤ)
        else deltaSum [(⟨"2019 - 2022", ""⟩ : ExperienceEntry)]) 5 :=
  ⟨by decide, by decide,
    c4_fallback_on_zero_sum [⟨"2019 - 2022", ""⟩] 5 (by decide) (by decide)⟩

/-- Claim C5 counterexample: the spec's end-to-end scenario is wrong on the
code.  The job-side extractor also picks up `R` (substring `r`), the
capitalized terms `Minimum` and `Bachelor`, and the split item
`skills: Python`, so the skills score is `2/6·100 = 100/3`, not 50; the
resume text contains no experience-section header, so no experience entries
are extracted and the experience score is 0, not 100; and the missing set is
not `{"Java"}`. -/
theorem c5_counterexample :
    ¬ ((scoreSkills (extractSkillsResume e2eResumeText)
          (extractSkillsJob e2eJobText)).1 = 50 ∧
       (scoreSkills (extractSkillsResume e2eResumeText)
          (extractSkillsJob e2eJobText)).2.2 = {"Java"} ∧
       scoreExperience (extractExperience e2eResumeText)
          (extractExperienceYears e2eJobText) = 100) := by
  rw [e2eSkillsEval, e2eExperienceEval]
  intro h
  have h1 := h.1
  norm_num at h1

/-- Claim C5 (corrected): on the scenario texts the pipeline actually yields
a skills score of `100/3` (2 of the 6 extracted job skills match: `Python`
and `R`), missing skills `{"Java", "Minimum", "Bachelor", "skills: Python"}`,
and an experience score of 0 (no experience section header in the resume
text, hence no entries against the 3-year requirement). -/
theorem c5_actual_values :
    (scoreSkills (extractSkillsResume e2eResumeText)
        (extractSkillsJob e2eJobText)).1 = 100 / 3 ∧
    (scoreSkills (extractSkillsResume e2eResumeText)
        (extractSkillsJob e2eJobText)).2.1 = {"Python", "R"} ∧
    (scoreSkills (extractSkillsResume e2eResumeText)
        (extractSkillsJob e2eJobText)).2.2 =
      {"Java", "Minimum", "Bachelor", "skills: Python"} ∧
    scoreExperience (extractExperience e2eResumeText)
      (extractExperienceYears e2eJobText) = 0 := by
  rw [e2eSkillsEval, e2eExperienceEval]
  exact ⟨rfl, rfl, rfl, rfl⟩

/-- Claim C6 (confirmed): when the semantic-similarity computation fails
(any exception inside the `try` block) or either input text is
empty/whitespace, the semantic component is 0 and `calculate_score` still
returns a complete result whose other four component scores are exactly the
standalone component values — the failure is never propagated. -/
theorem c6_semantic_failure_absorbed (r : ResumeData) (j : JobData)
    (sim : Except Unit ℚ)
    (h : pyStrip r.text = "" ∨ pyStrip j.full_text = "" ∨
      sim = Except.error ()) :
    (calculateScore r j sim).semantic_score = 0 ∧
    (calculateScore r j sim).skills_score =
      round1 (scoreSkills r.skills j.skills).1 ∧
    (calculateScore r j sim).keywords_score =
      round1 (scoreKeywords r.keywords j.keywords).1 ∧
    (calculateScore r j sim).experience_score =
      round1 (scoreExperience r.experience j.experience_years) ∧
    (calculateScore r j sim).education_score =
      round1 (scoreEducation r.education j.education) := by
  have hsem : computeSemanticSimilarity r.text j.full_text sim = 0 := by
    rcases h with h | h | h
    · simp [computeSemanticSimilarity, h]
    · simp [computeSemanticSimilarity, h]
    · subst h
      by_cases he : pyStrip r.text = "" ∨ pyStrip j.full_text = "" <;>
        simp [computeSemanticSimilarity, he]
  refine ⟨?_, rfl, rfl, rfl, rfl⟩
  show round1 (computeSemanticSimilarity r.text j.full_text sim) = 0
  rw [hsem]
  simp [round1]

/-- Witness for `c6_semantic_failure_absorbed`: the empty profiles with a
failing estimator. -/
theorem c6_witness :
    (calculateScore emptyResume emptyJob (Except.error ())).semantic_score = 0 ∧
    (calculateScore emptyResume emptyJob (Except.error ())).skills_score =
      round1 (scoreSkills emptyResume.skills emptyJob.skills).1 ∧
    (calculateScore emptyResume emptyJob (Except.error ())).keywords_score =
      round1 (scoreKeywords emptyResume.keywords emptyJob.keywords).1 ∧
    (calculateScore emptyResume emptyJob (Except.error ())).experience_score =
      round1 (scoreExperience emptyResume.experience emptyJob.experience_years) ∧
    (calculateScore emptyResume emptyJob (Except.error ())).education_score =
      round1 (scoreEducation emptyResume.education emptyJob.education) :=
  c6_semantic_failure_absorbed emptyResume emptyJob (Except.error ())
    (Or.inl rfl)

/-- Claim C7 (confirmed): `_extract_experience_years` returns the integer
captured by the first of the three patterns that matches, trying them in the
fixed order `yearsRE1`, `yearsRE2`, `yearsRE3`, and returns 0 when none
matches. -/
theorem c7_pattern_order (t : String) :
    extractExperienceYears t =
      (match searchYears yearsRE1 t with
       | some n => n
       | none =>
         match searchYears yearsRE2 t with
         | some n => n
         | none =>
           match searchYears yearsRE3 t with
           | some n => n
           | none => 0) := by
  simp only [extractExperienceYears, firstPatternYears]

/-- Claim C8 (confirmed): the suggestion rules are evaluated independently
and emitted in the fixed order of §4.4 (missing skills, overall-score band,
semantic, experience visibility, keyword count, generic formatting); the
`overall < 60` and `overall < 80` sentences are mutually exclusive — the
mid-score sentence appears exactly when `60 ≤ overall < 80` and the
low-score sentence exactly when `overall < 60`; the missing-skills sentence
lists at most the first 5 missing skills; and the generic formatting
sentence is always last, so the list is never empty. -/
theorem c8_suggestion_rules (m : Finset String) (j : JobData) (r : ResumeData)
    (o sem : ℚ) :
    generateSuggestions m j r o sem =
      (if m ≠ ∅ then
        [missingSkillsSentence
          (String.intercalate ", " ((m.sort (· ≤ ·)).take 5))]
       else [])
      ++ (if o < 60 then [lowScoreSentence]
          else if o < 80 then [midScoreSentence] else [])
      ++ (if sem < 60 then [semanticSentence] else [])
      ++ (if 0 < j.experience_years ∧ r.experience.length = 0 then
          [experienceSentence j.experience_years] else [])
      ++ (if r.keywords.card < 20 then [keywordSentence] else [])
      ++ [formattingSentence] ∧
    generateSuggestions m j r o sem ≠ [] ∧
    (generateSuggestions m j r o sem).getLast? = some formattingSentence ∧
    ((m.sort (· ≤ ·)).take 5).length ≤ 5 ∧
    (lowScoreSentence ∈ generateSuggestions m j r o sem ↔ o < 60) ∧
    (midScoreSentence ∈ generateSuggestions m j r o sem ↔
      60 ≤ o ∧ o < 80) := by
  have htop : m ≠ ∅ → (m.sort (· ≤ ·)).take 5 ≠ [] := by
    intro hm hnil
    have h1 : m.sort (· ≤ ·) = [] := by
      cases hs : m.sort (· ≤ ·) with
      | nil => rfl
      | cons a t =>
        rw [hs] at hnil
        simp at hnil
    have h2 : m.card = 0 := by
      rw [← Finset.length_sort (α := String) (· ≤ ·), h1]
      rfl
    exact hm (Finset.card_eq_zero.mp h2)
  have hstruct : generateSuggestions m j r o sem =
      (if m ≠ ∅ then
        [missingSkillsSentence
          (String.intercalate ", " ((m.sort (· ≤ ·)).take 5))]
       else [])
      ++ (if o < 60 then [lowScoreSentence]
          else if o < 80 then [midScoreSentence] else [])
      ++ (if sem < 60 then [semanticSentence] else [])
      ++ (if 0 < j.experience_years ∧ r.experience.length = 0 then
          [experienceSentence j.experience_years] else [])
      ++ (if r.keywords.card < 20 then [keywordSentence] else [])
      ++ [formattingSentence] := by
    by_cases hm : m = ∅
    · simp [generateSuggestions, hm]
    · have ht := htop hm
      simp only [generateSuggestions, hm, ht, ne_eq, not_false_iff, if_true,
        ite_true]
  have hlast : (generateSuggestions m j r o sem).getLast? =
      some formattingSentence := by
    rw [hstruct]
    exact lastOfAppendSingleton _ _
  have hne : generateSuggestions m j r o sem ≠ [] := by
    intro h0
    rw [h0] at hlast
    exact Option.noConfusion hlast
  have hBlow : lowScoreSentence ∈
      (if o < 60 then [lowScoreSentence]
       else if o < 80 then [midScoreSentence] else []) ↔ o < 60 := by
    by_cases h1 : o < 60
    · rw [if_pos h1]
      simp [h1]
    · rw [if_neg h1]
      by_cases h2 : o < 80
      · rw [if_pos h2]
        simp only [List.mem_singleton, iff_false, h1]
        intro hq
        exact absurd hq (by decide)
      · rw [if_neg h2]
        simp [h1]
  have hBmid : midScoreSentence ∈
      (if o < 60 then [lowScoreSentence]
       else if o < 80 then [midScoreSentence] else []) ↔
      60 ≤ o ∧ o < 80 := by
    by_cases h1 : o < 60
    · rw [if_pos h1]
      simp only [List.mem_singleton]
      constructor
      · intro hq
        exact absurd hq (by decide)
      · rintro ⟨ha, _⟩
        linarith
    · rw [if_neg h1]
      by_cases h2 : o < 80
      · rw [if_pos h2]
        simp only [List.mem_singleton, true_iff, iff_true]
        exact ⟨le_of_not_lt h1, h2⟩
      · rw [if_neg h2]
        simp only [List.not_mem_nil, false_iff, not_and]
        exact fun _ => h2
  have hmemA : ∀ x : String, (∀ ms : String, x ≠ missingSkillsSentence ms) →
      x ∉ (if m ≠ ∅ then
        [missingSkillsSentence
          (String.intercalate ", " ((m.sort (· ≤ ·)).take 5))]
       else []) := by
    intro x hx
    split_ifs with hm
    · simp [hx]
    · simp
  have hmemC : ∀ x : String, x ≠ semanticSentence →
      x ∉ (if sem < 60 then [semanticSentence] else []) := by
    intro x hx
    split_ifs
    · simp [hx]
    · simp
  have hmemD : ∀ x : String, (∀ n : Nat, x ≠ experienceSentence n) →
      x ∉ (if 0 < j.experience_years ∧ r.experience.length = 0 then
        [experienceSentence j.experience_years] else []) := by
    intro x hx
    split_ifs
    · simp [hx]
    · simp
  have hmemE : ∀ x : String, x ≠ keywordSentence →
      x ∉ (if r.keywords.card < 20 then [keywordSentence] else []) := by
    intro x hx
    split_ifs
    · simp [hx]
    · simp
  have hmem : ∀ x : String, (∀ ms : String, x ≠ missingSkillsSentence ms) →
      x ≠ semanticSentence → (∀ n : Nat, x ≠ experienceSentence n) →
      x ≠ keywordSentence → x ≠ formattingSentence →
      (x ∈ generateSuggestions m j r o sem ↔
        x ∈ (if o < 60 then [lowScoreSentence]
          else if o < 80 then [midScoreSentence] else [])) := by
    intro x h1 h2 h3 h4 h5
    rw [hstruct]
    simp only [List.mem_append, List.mem_singleton]
    constructor
    · rintro (((((h | h) | h) | h) | h) | h)
      · exact absurd h (hmemA x h1)
      · exact h
      · exact absurd h (hmemC x h2)
      · exact absurd h (hmemD x h3)
      · exact absurd h (hmemE x h4)
      · exact absurd h h5
    · intro h
      exact Or.inl (Or.inl (Or.inl (Or.inl (Or.inr h))))
  refine ⟨hstruct, hne, hlast, ?_, ?_, ?_⟩
  · rw [List.length_take]
    exact min_le_left _ _
  · rw [hmem lowScoreSentence lowNeMissing (by decide) lowNeExperience
      (by decide) (by decide)]
    exact hBlow
  · rw [hmem midScoreSentence midNeMissing (by decide) midNeExperience
      (by decide) (by decide)]
    exact hBmid

/-- Claim C9 (confirmed): `calculate_score` is a pure function of the resume
profile, the job profile and the semantic-similarity outcome — two calls on
identical inputs return identical results (all numeric fields, the
matched/missing sets, and the strengths and suggestions sequences). -/
theorem c9_deterministic (r1 r2 : ResumeData) (j1 j2 : JobData)
    (s1 s2 : Except Unit ℚ) (hr : r1 = r2) (hj : j1 = j2) (hs : s1 = s2) :
    calculateScore r1 j1 s1 = calculateScore r2 j2 s2 := by
  subst hr
  subst hj
  subst hs
  rfl

/-- Witness for `c9_deterministic` at a concrete input. -/
theorem c9_witness :
    calculateScore emptyResume emptyJob (Except.ok (1 / 2)) =
      calculateScore emptyResume emptyJob (Except.ok (1 / 2)) :=
  c9_deterministic _ _ _ _ _ _ rfl rfl rfl

/-- Claim C10 (confirmed): in `_score_skills` the exact-match and fuzzy-match
sets are disjoint subsets of the lowercased job skill set, their cardinality
sum never exceeds the number of distinct lowercased job skills, and therefore
the final `min(score, 100)` clamp never changes the computed score. -/
theorem c10_clamp_is_noop (rs js : Finset String) :
    Disjoint (exactMatches rs js) (fuzzyMatches rs js) ∧
    exactMatches rs js ⊆ js.image lowerStrip ∧
    fuzzyMatches rs js ⊆ js.image lowerStrip ∧
    (exactMatches rs js).card + (fuzzyMatches rs js).card ≤
      (js.image lowerStrip).card ∧
    min ((((exactMatches rs js).card + (fuzzyMatches rs js).card : ℚ) /
        (js.image lowerStrip).card) * 100) 100 =
      (((exactMatches rs js).card + (fuzzyMatches rs js).card : ℚ) /
        (js.image lowerStrip).card) * 100 := by
  have hfe : fuzzyMatches rs js ⊆ (js.image lowerStrip) \ exactMatches rs js :=
    Finset.filter_subset _ _
  have hdisj : Disjoint (exactMatches rs js) (fuzzyMatches rs js) :=
    Finset.disjoint_sdiff.mono_right hfe
  have hesub : exactMatches rs js ⊆ js.image lowerStrip :=
    Finset.inter_subset_right
  have hfsub : fuzzyMatches rs js ⊆ js.image lowerStrip :=
    hfe.trans (Finset.sdiff_subset)
  have hcard : (exactMatches rs js).card + (fuzzyMatches rs js).card ≤
      (js.image lowerStrip).card := by
    rw [← Finset.card_union_of_disjoint hdisj]
    exact Finset.card_le_card (Finset.union_subset hesub hfsub)
  refine ⟨hdisj, hesub, hfsub, hcard, min_eq_left ?_⟩
  rcases Nat.eq_zero_or_pos (js.image lowerStrip).card with hz | hp
  · simp [hz]
  · have hpos : (0 : ℚ) < (js.image lowerStrip).card := by
      exact_mod_cast hp
    have h1 : ((exactMatches rs js).card + (fuzzyMatches rs js).card : ℚ) /
        (js.image lowerStrip).card ≤ 1 := by
      rw [div_le_one hpos]
      exact_mod_cast hcard
    calc ((exactMatches rs js).card + (fuzzyMatches rs js).card : ℚ) /
          (js.image lowerStrip).card * 100
        ≤ 1 * 100 := mul_le_mul_of_nonneg_right h1 (by norm_num)
      _ = 100 := one_mul 100

end ATS

